import Mathlib

/-! Shallow embedding of the point-robot environments.

Shallow embedding of `rlkit/envs/point_robot.py`: a family of 2-D point-robot
environments (`PointEnv` and its sparse / noisy / hazard / sub variants).

Positions, actions, goals and rewards are real numbers.  Per-step randomness
(the uniform draw `np.random.rand()` and the hazard teleport angle) is passed
in explicitly as a parameter.  A Python step returns
`(ob, reward, done, info)`; the `info` dict carries at most the key
`sparse_reward`, modelled as an `Option ℝ`.
-/

/-- A 2-D point (position, action, or goal). -/
abbrev Vec2 := ℝ × ℝ

/-- Base transition `self._state = self._state + action` (componentwise numpy addition). -/
noncomputable def PointEnv.nextState (state action : Vec2) : Vec2 :=
  (state.1 + action.1, state.2 + action.2)

/-- The dense reward computed in `PointEnv.step`:
`x, y = self._state; x -= goal[0]; y -= goal[1];
reward = -(x ** 2 + y ** 2) ** 0.5`. -/
noncomputable def denseReward (goal s : Vec2) : ℝ :=
  -Real.sqrt ((s.1 - goal.1) ^ 2 + (s.2 - goal.2) ^ 2)

/-- Base `PointEnv.step`: add the action to the state, compute dense reward,
return `(ob, reward, done=False, dict())` where `ob` is the new state.
The first component is the new state (= observation), the last the
`sparse_reward` entry of the info dict (absent in the base env). -/
noncomputable def PointEnv.step (goal state action : Vec2) :
    Vec2 × ℝ × Bool × Option ℝ :=
  let s := PointEnv.nextState state action
  (s, denseReward goal s, false, none)

/-- Sparsification `sparsify_rewards`: `mask = (r >= -goal_radius).astype(np.float32); r = r * mask`. -/
noncomputable def sparsify_rewards (goal_radius r : ℝ) : ℝ :=
  r * (if -goal_radius ≤ r then 1 else 0)

/-- The reward shaping shared by the sparse variants' `step`:
`sparse_reward = self.sparsify_rewards(reward)`, then
`if reward >= -self.goal_radius: sparse_reward += 1`. -/
noncomputable def shapedReward (goal_radius r : ℝ) : ℝ :=
  let sparse := sparsify_rewards goal_radius r
  if -goal_radius ≤ r then sparse + 1 else sparse

/-- Step of `SparsePointEnv` (registered `sparse-point-robot`): the base step
followed by sparsification; the shaped reward both overwrites `reward` and is
stored under `sparse_reward` in the info dict. -/
noncomputable def SparsePointEnv.step (goal_radius : ℝ) (goal state action : Vec2) :
    Vec2 × ℝ × Bool × Option ℝ :=
  let s := PointEnv.nextState state action
  let sr := shapedReward goal_radius (denseReward goal s)
  (s, sr, false, some sr)

/-- Observation builder `SparsePointEnvNoise._get_obs`: `noise = np.random.rand()*noise_variance*2`
with `noise_variance = 2`, then `if (x**2+(y+1)**2)**0.5 > 0.3: noise = 0`;
returns `[x, y, noise]`.  `u` is the uniform draw from `[0, 1)`. -/
noncomputable def SparsePointEnvNoise.getObs (s : Vec2) (u : ℝ) : ℝ × ℝ × ℝ :=
  let noise := u * 2 * 2
  let noise2 := if Real.sqrt (s.1 ^ 2 + (s.2 + 1) ^ 2) > 0.3 then 0 else noise
  (s.1, s.2, noise2)

/-- Step of `SparsePointEnvNoise` (registered `sparse-point-robot-noise`): the
base transition with the 3-component noisy observation and the shared
sparsification. -/
noncomputable def SparsePointEnvNoise.step (goal_radius : ℝ) (goal state action : Vec2)
    (u : ℝ) : (ℝ × ℝ × ℝ) × ℝ × Bool × Option ℝ :=
  let s := PointEnv.nextState state action
  let sr := shapedReward goal_radius (denseReward goal s)
  (SparsePointEnvNoise.getObs s u, sr, false, some sr)

/-- The hazard-redirect transition of `inner_step` (shared verbatim by the
`sparse-point-robot-random` and `sparse-lava-point` variants):
`x, y = self._state; x -= 0; y -= -1; dist = (x**2+y**2)**0.5;
if dist < 0.3: teleport to (5 cos θ, 5 sin θ) else state + action`,
where `θ = np.random.rand()*2π` is the random teleport angle. -/
noncomputable def hazardNextState (state action : Vec2) (θ : ℝ) : Vec2 :=
  if Real.sqrt ((state.1 - 0) ^ 2 + (state.2 - (-1)) ^ 2) < 0.3 then
    (5 * Real.cos θ, 5 * Real.sin θ)
  else
    (state.1 + action.1, state.2 + action.2)

/-- Shared `inner_step`: hazard-redirect transition, then the same dense reward and
`(ob, reward, done=False, dict())` return as the base step. -/
noncomputable def inner_step (goal state action : Vec2) (θ : ℝ) :
    Vec2 × ℝ × Bool × Option ℝ :=
  let s := hazardNextState state action θ
  (s, denseReward goal s, false, none)

/-- Step of the `sparse-point-robot-random` variant:
`inner_step` followed by the shared sparsification. -/
noncomputable def SparsePointEnvRandom.step (goal_radius : ℝ) (goal state action : Vec2)
    (θ : ℝ) : Vec2 × ℝ × Bool × Option ℝ :=
  let s := hazardNextState state action θ
  let sr := shapedReward goal_radius (denseReward goal s)
  (s, sr, false, some sr)

/-- Membership in `self.lava_space = spaces.Box(low=[-0.1, 0.1], high=[0.1, inf])`:
gym `Box.contains` checks `low <= v <= high` componentwise; the upper bound
`inf` on the second coordinate is vacuous. -/
def lavaContains (p : Vec2) : Prop :=
  -0.1 ≤ p.1 ∧ p.1 ≤ 0.1 ∧ 0.1 ≤ p.2

noncomputable instance (p : Vec2) : Decidable (lavaContains p) := by
  unfold lavaContains; infer_instance

/-- Step of `SparseLavaPointEnv` (registered `sparse-lava-point`): `inner_step`,
the shared sparsification, then
`if self.lava_space.contains(ob): sparse_reward -= self.lava_cost`. -/
noncomputable def SparseLavaPointEnv.step (goal_radius lava_cost : ℝ)
    (goal state action : Vec2) (θ : ℝ) : Vec2 × ℝ × Bool × Option ℝ :=
  let s := hazardNextState state action θ
  let sr := shapedReward goal_radius (denseReward goal s)
  let sr2 := if lavaContains s then sr - lava_cost else sr
  (s, sr2, false, some sr2)

/-- Step of `SparsePointEnvSub` (registered `sparse-point-robot-sub`): base step,
sparsification with `reward += 1` also applied inside the bonus branch, then a
secondary proximity bonus: `x = state[0]; y = state[1] + 1; dist = sqrt(x²+y²)`,
`if dist < 0.5: sparse_reward += (0.8 - dist)` and
`if dist < 0.5: reward = (0.8 - dist)`.  The returned reward channel is NOT
overwritten by the sparse reward. -/
noncomputable def SparsePointEnvSub.step (goal_radius : ℝ) (goal state action : Vec2) :
    Vec2 × ℝ × Bool × Option ℝ :=
  let s := PointEnv.nextState state action
  let r := denseReward goal s
  let sparse := sparsify_rewards goal_radius r
  let sparse2 := if -goal_radius ≤ r then sparse + 1 else sparse
  let r2 := if -goal_radius ≤ r then r + 1 else r
  let dist := Real.sqrt (s.1 ^ 2 + (s.2 + 1) ^ 2)
  let sparse3 := if dist < 0.5 then sparse2 + (0.8 - dist) else sparse2
  let r3 := if dist < 0.5 then 0.8 - dist else r2
  (s, r3, false, some sparse3)

/-- The hand-coded goal list of `PointEnv.__init__` before scaling. -/
noncomputable def fixedGoalsBase : List Vec2 :=
  [(10, -10), (10, 10), (-10, 10), (-10, -10), (0, 0), (7, 2), (0, 4), (-6, 9)]

/-- Scaled goals: `goals = [g / 10. for g in goals]`. -/
noncomputable def fixedGoals : List Vec2 :=
  fixedGoalsBase.map (fun g => (g.1 / 10, g.2 / 10))

/-- The goal list produced by `PointEnv.__init__`: the seeded random draws
(abstracted as `draws`) when `randomize_tasks`, else the fixed list.  The
count `n` is unused in the fixed branch. -/
noncomputable def PointEnv.initGoals (randomize : Bool) (n : ℕ) (draws : List Vec2) :
    List Vec2 :=
  if randomize then draws else fixedGoals

/-- The goal list produced by the sparse subclasses' `__init__`
(`SparsePointEnv`, `SparsePointEnvNoise`, `SparsePointEnvSub`,
`SparsePointEnvRandom`, `SparseLavaPointEnv`): the local variable `goals` is
assigned only inside the `if randomize_tasks:` branch, so the unconditional
`self.goals = goals` raises `UnboundLocalError` when `randomize_tasks` is
false — modelled as `none`.  `shuffled` abstracts the seeded, shuffled
half-circle goals of the randomized branch; `n` is the task count. -/
def SparseVariant.initGoals (randomize : Bool) (n : ℕ) (shuffled : List Vec2) :
    Option (List Vec2) :=
  if randomize then some shuffled else none

/-- Python list indexing `l[i]` for a (possibly negative) integer index:
a negative `i` counts from the end; an index whose effective position is
outside `[0, len)` raises `IndexError`, modelled as `none`. -/
def pyIndex {α : Type} (l : List α) (i : ℤ) : Option α :=
  let j := if i < 0 then i + l.length else i
  if 0 ≤ j ∧ j < l.length then l.get? j.toNat else none

/-- Task reset `PointEnv.reset_task(idx)`: `self._goal = self.goals[idx]; self.reset()`.
Returns the new `(goal, state)` pair, where `resetState` is the state produced
by the variant's `reset_model` (a fresh random point for the base env, the
origin for the sparse variants); `none` models the `IndexError`. -/
def PointEnv.reset_task (goals : List Vec2) (i : ℤ) (resetState : Vec2) :
    Option (Vec2 × Vec2) :=
  (pyIndex goals i).map (fun g => (g, resetState))

/-- C1: one base `PointEnv.step` with a 2-D action adds the action to the state
componentwise, returns reward `-sqrt((x-gx)² + (y-gy)²)` measured at the new
state `(x, y)` against the active goal `(gx, gy)`, and this reward is `≤ 0`. -/
theorem c1_base_step_correct (goal state action : Vec2) :
    (PointEnv.step goal state action).1 = (state.1 + action.1, state.2 + action.2) ∧
    (PointEnv.step goal state action).2.1 =
      -Real.sqrt (((state.1 + action.1) - goal.1) ^ 2 +
        ((state.2 + action.2) - goal.2) ^ 2) ∧
    (PointEnv.step goal state action).2.1 ≤ 0 := by
  refine ⟨rfl, rfl, ?_⟩
  simp only [PointEnv.step, denseReward]
  exact neg_nonpos.mpr (Real.sqrt_nonneg _)

/-- C2: the sparse variants' reward shaping sends a dense reward `r` to `r + 1`
when `r ≥ -goal_radius` and to `0` when `r < -goal_radius`; in particular with
`goal_radius = 0.3`, dense reward `-0.25` yields `0.75` and `-0.5` yields `0`,
and the `sparse-point-robot` step returns exactly this shaped value of the
dense reward at the new state. -/
theorem c2_sparsify_shaping (goal_radius r : ℝ) :
    shapedReward goal_radius r = (if -goal_radius ≤ r then r + 1 else 0) ∧
    shapedReward 0.3 (-0.25) = 0.75 ∧
    shapedReward 0.3 (-0.5) = 0 ∧
    ∀ goal state action : Vec2,
      (SparsePointEnv.step goal_radius goal state action).2.1 =
        shapedReward goal_radius
          (denseReward goal (PointEnv.nextState state action)) := by
  refine ⟨?_, ?_, ?_, fun goal state action => rfl⟩
  · simp only [shapedReward, sparsify_rewards]
    split_ifs with h <;> ring
  · norm_num [shapedReward, sparsify_rewards]
  · norm_num [shapedReward, sparsify_rewards]

/-- C3 counterexample: at position `(0, -1)` — Euclidean distance `0 ≤ 0.3`
from `(0, -1)` — the claim demands a third observation component of exactly
`0`, but with uniform draw `u = 1/2` the code produces `u*2*2 = 2 ≠ 0`: the
code zeroes the noise when the distance EXCEEDS `0.3` and keeps the random
value otherwise, the reverse of the claim. -/
theorem c3_noise_condition_counterexample :
    SparsePointEnvNoise.getObs ((0 : ℝ), (-1 : ℝ)) (1 / 2) = (0, -1, 2) ∧
    ¬ (Real.sqrt (((0 : ℝ)) ^ 2 + ((-1 : ℝ) + 1) ^ 2) > 0.3) ∧
    ((2 : ℝ) ≠ 0) := by
  refine ⟨?_, ?_, by norm_num⟩
  · simp only [SparsePointEnvNoise.getObs, Prod.mk.injEq]
    norm_num
  · norm_num

/-- C3 amended: the observation is the 2-D position concatenated with a third
scalar that is the uniform random value `u*2*2 ∈ [0, 4)` whenever the position
is at Euclidean distance NOT greater than `0.3` from `(0, -1)`, and is exactly
`0` when that distance is greater than `0.3`. -/
theorem c3_noise_condition_amended (s : Vec2) (u : ℝ) (h0 : 0 ≤ u) (h1 : u < 1) :
    (SparsePointEnvNoise.getObs s u).1 = s.1 ∧
    (SparsePointEnvNoise.getObs s u).2.1 = s.2 ∧
    (Real.sqrt (s.1 ^ 2 + (s.2 + 1) ^ 2) > 0.3 →
      (SparsePointEnvNoise.getObs s u).2.2 = 0) ∧
    (¬ (Real.sqrt (s.1 ^ 2 + (s.2 + 1) ^ 2) > 0.3) →
      (SparsePointEnvNoise.getObs s u).2.2 = u * 2 * 2 ∧
      0 ≤ u * 2 * 2 ∧ u * 2 * 2 < 4) := by
  refine ⟨rfl, rfl, ?_, ?_⟩
  · intro h
    simp only [SparsePointEnvNoise.getObs, if_pos h]
  · intro h
    refine ⟨?_, by positivity, by linarith⟩
    simp only [SparsePointEnvNoise.getObs, if_neg h]

/-- C3 amended, witness at position `(0, 0)` with draw `1/2`. -/
theorem c3_noise_condition_amended_witness :
    (SparsePointEnvNoise.getObs ((0 : ℝ), (0 : ℝ)) (1 / 2)).1 = 0 :=
  (c3_noise_condition_amended ((0 : ℝ), (0 : ℝ)) (1 / 2)
    (by norm_num) (by norm_num)).1

/-- C4: the base `PointEnv.__init__` with `randomize_tasks=False` yields the
8 fixed goals (scaled by 1/10), for every `n_tasks`; but in every sparse
subclass the constructor with `randomize_tasks=False` reads the unassigned
local `goals` (`UnboundLocalError`), so construction fails instead of
succeeding with that list. -/
theorem c4_fixed_goals_code_eval :
    (∀ (n : ℕ) (draws : List Vec2), PointEnv.initGoals false n draws = fixedGoals) ∧
    fixedGoals = [(1, -1), (1, 1), (-1, 1), (-1, -1), (0, 0),
      (0.7, 0.2), (0, 0.4), (-0.6, 0.9)] ∧
    (∀ (n : ℕ) (shuffled : List Vec2),
      SparseVariant.initGoals false n shuffled = none) := by
  refine ⟨fun n draws => rfl, ?_, fun n shuffled => rfl⟩
  norm_num [fixedGoals, fixedGoalsBase, Prod.ext_iff]

/-- C5: in the hazard-redirect variants, when the pre-step state is at
distance `< 0.3` from `(0, -1)` the proposed action is ignored and the next
state is `(5 cos θ, 5 sin θ)`, a point at distance exactly `5` from the
origin; otherwise the action is applied as plain vector addition.  The state
`(0, -1)` itself satisfies the redirect condition. -/
theorem c5_hazard_redirect (goal state action : Vec2) (θ : ℝ) :
    (inner_step goal state action θ).1 =
      (if Real.sqrt ((state.1 - 0) ^ 2 + (state.2 - (-1)) ^ 2) < 0.3 then
        ((5 : ℝ) * Real.cos θ, (5 : ℝ) * Real.sin θ)
      else (state.1 + action.1, state.2 + action.2)) ∧
    Real.sqrt ((5 * Real.cos θ) ^ 2 + (5 * Real.sin θ) ^ 2) = 5 ∧
    Real.sqrt (((0 : ℝ) - 0) ^ 2 + ((-1 : ℝ) - (-1)) ^ 2) < 0.3 := by
  refine ⟨rfl, ?_, ?_⟩
  · have h : (5 * Real.cos θ) ^ 2 + (5 * Real.sin θ) ^ 2 = 25 := by
      linear_combination 25 * Real.sin_sq_add_cos_sq θ
    rw [h, show (25 : ℝ) = 5 ^ 2 by norm_num,
      Real.sqrt_sq (by norm_num : (0 : ℝ) ≤ 5)]
  · norm_num

/-- Helper: a zero action leaves the additive transition in place. -/
theorem nextState_zero (s : Vec2) : PointEnv.nextState s ((0 : ℝ), (0 : ℝ)) = s := by
  simp [PointEnv.nextState]

/-- C6 counterexample: in the hazard-redirect variants the state `(0, -1)` is
reachable from the reset state `(0, 0)` in one step, and from it a step with
the ZERO action (teleport angle draw `0`) moves the agent to `(5, 0)`: zero
actions do not leave the state unchanged in every variant. -/
theorem c6_zero_action_counterexample :
    (inner_step ((1 : ℝ), (0 : ℝ)) ((0 : ℝ), (0 : ℝ)) ((0 : ℝ), (-1 : ℝ)) 0).1 =
      ((0 : ℝ), (-1 : ℝ)) ∧
    (inner_step ((1 : ℝ), (0 : ℝ)) ((0 : ℝ), (-1 : ℝ)) ((0 : ℝ), (0 : ℝ)) 0).1 =
      ((5 : ℝ), (0 : ℝ)) ∧
    (((5 : ℝ), (0 : ℝ)) : Vec2) ≠ ((0 : ℝ), (-1 : ℝ)) := by
  refine ⟨?_, ?_, ?_⟩
  · simp only [inner_step, hazardNextState]
    norm_num
  · simp only [inner_step, hazardNextState]
    norm_num [Real.cos_zero, Real.sin_zero]
  · simp only [Ne, Prod.mk.injEq, not_and]
    norm_num

/-- C6 amended: repeated zero-action steps leave the state unchanged with a
constant reward in the base, `sparse-point-robot`, noise, and `sub` variants;
in the two hazard-redirect variants this holds exactly when the state is at
distance `≥ 0.3` from `(0, -1)`, and within that radius a zero-action step
teleports the state to the radius-5 circle instead. -/
theorem c6_zero_action_amended (goal state : Vec2) (goal_radius lava_cost θ u : ℝ)
    (n : ℕ) :
    (fun s : Vec2 => (PointEnv.step goal s ((0 : ℝ), (0 : ℝ))).1)^[n] state = state ∧
    (PointEnv.step goal state ((0 : ℝ), (0 : ℝ))).2.1 = denseReward goal state ∧
    (SparsePointEnv.step goal_radius goal state ((0 : ℝ), (0 : ℝ))).1 = state ∧
    (SparsePointEnv.step goal_radius goal state ((0 : ℝ), (0 : ℝ))).2.1 =
      shapedReward goal_radius (denseReward goal state) ∧
    (SparsePointEnvNoise.step goal_radius goal state ((0 : ℝ), (0 : ℝ)) u).2.1 =
      shapedReward goal_radius (denseReward goal state) ∧
    (SparsePointEnvSub.step goal_radius goal state ((0 : ℝ), (0 : ℝ))).1 = state ∧
    (SparsePointEnvRandom.step goal_radius goal state ((0 : ℝ), (0 : ℝ)) θ).1 =
      hazardNextState state ((0 : ℝ), (0 : ℝ)) θ ∧
    (SparseLavaPointEnv.step goal_radius lava_cost goal state ((0 : ℝ), (0 : ℝ)) θ).1 =
      hazardNextState state ((0 : ℝ), (0 : ℝ)) θ ∧
    hazardNextState state ((0 : ℝ), (0 : ℝ)) θ =
      (if Real.sqrt ((state.1 - 0) ^ 2 + (state.2 - (-1)) ^ 2) < 0.3 then
        ((5 : ℝ) * Real.cos θ, (5 : ℝ) * Real.sin θ)
      else state) := by
  have hid : (fun s : Vec2 => (PointEnv.step goal s ((0 : ℝ), (0 : ℝ))).1) = id := by
    funext s
    exact nextState_zero s
  refine ⟨?_, ?_, ?_, ?_, ?_, ?_, rfl, rfl, ?_⟩
  · rw [hid, Function.iterate_id, id]
  · show denseReward goal (PointEnv.nextState state ((0 : ℝ), (0 : ℝ))) = _
    rw [nextState_zero]
  · exact nextState_zero state
  · show shapedReward _ (denseReward goal (PointEnv.nextState state _)) = _
    rw [nextState_zero]
  · show shapedReward _ (denseReward goal (PointEnv.nextState state _)) = _
    rw [nextState_zero]
  · exact nextState_zero state
  · simp only [hazardNextState]
    split_ifs with h
    · rfl
    · simp

/-- Helper: Python indexing fails exactly when the index is below `-len` or at
least `len`. -/
theorem pyIndex_eq_none_iff {α : Type} (l : List α) (i : ℤ) :
    pyIndex l i = none ↔ i < -(l.length : ℤ) ∨ (l.length : ℤ) ≤ i := by
  simp only [pyIndex]
  split_ifs <;>
    simp only [List.get?_eq_none, eq_self_iff_true, true_iff] <;>
    omega

/-- Helper: on natural indices Python indexing agrees with `List.get?`. -/
theorem pyIndex_natCast {α : Type} (l : List α) (j : ℕ) :
    pyIndex l (j : ℤ) = l.get? j := by
  simp only [pyIndex]
  split_ifs with h1 h2 h2
  · omega
  · omega
  · rw [Int.toNat_natCast]
  · symm
    rw [List.get?_eq_none]
    omega

/-- C7 counterexample: with the 8-entry fixed task set, `reset_task(-1)` does
NOT fail although `-1` is outside the task-set index range `[0, 8)`: Python's
negative indexing silently selects the last goal. -/
theorem c7_reset_task_counterexample :
    PointEnv.reset_task fixedGoals (-1) ((0 : ℝ), (0 : ℝ)) ≠ none ∧
    ¬ (0 ≤ (-1 : ℤ) ∧ (-1 : ℤ) < (fixedGoals.length : ℤ)) := by
  have hlen : fixedGoals.length = 8 := by
    simp [fixedGoals, fixedGoalsBase]
  constructor
  · simp only [PointEnv.reset_task, Ne, Option.map_eq_none']
    rw [pyIndex_eq_none_iff, hlen]
    omega
  · rw [hlen]
    omega

/-- C7 amended: `reset_task(idx)` fails with an index error if and only if
`idx < -n` or `idx ≥ n`, where `n` is the size of the task set (Python lists
accept negative indices counting from the end); for a natural index `j` it
returns the goal at position `j` of the task set — failing exactly when
`j ≥ n` — paired with the reinitialized agent state. -/
theorem c7_reset_task_amended (goals : List Vec2) (i : ℤ) (st : Vec2) :
    (PointEnv.reset_task goals i st = none ↔
      i < -(goals.length : ℤ) ∨ (goals.length : ℤ) ≤ i) ∧
    ∀ j : ℕ, PointEnv.reset_task goals (j : ℤ) st =
      (goals.get? j).map (fun g => (g, st)) := by
  constructor
  · simp only [PointEnv.reset_task, Option.map_eq_none']
    exact pyIndex_eq_none_iff goals i
  · intro j
    simp only [PointEnv.reset_task, pyIndex_natCast]

/-- C8: in the lava variant, the step reward equals the shaped sparse reward
minus `lava_cost` exactly when the returned observation (the post-transition
state) lies in the hazard box `x ∈ [-0.1, 0.1], y ∈ [0.1, ∞)`, and is the
unchanged shaped sparse reward otherwise. -/
theorem c8_lava_penalty (goal_radius lava_cost : ℝ) (goal state action : Vec2)
    (θ : ℝ) :
    (SparseLavaPointEnv.step goal_radius lava_cost goal state action θ).1 =
      hazardNextState state action θ ∧
    (SparseLavaPointEnv.step goal_radius lava_cost goal state action θ).2.1 =
      shapedReward goal_radius (denseReward goal (hazardNextState state action θ)) -
        (if -0.1 ≤ (hazardNextState state action θ).1 ∧
            (hazardNextState state action θ).1 ≤ 0.1 ∧
            0.1 ≤ (hazardNextState state action θ).2
         then lava_cost else 0) ∧
    (lavaContains (hazardNextState state action θ) ↔
      -0.1 ≤ (hazardNextState state action θ).1 ∧
        (hazardNextState state action θ).1 ≤ 0.1 ∧
        0.1 ≤ (hazardNextState state action θ).2) := by
  refine ⟨rfl, ?_, Iff.rfl⟩
  simp only [SparseLavaPointEnv.step, lavaContains]
  split_ifs with h
  · ring
  · ring

/-- C9: no variant's `step` ever reports termination: the returned `done`
flag is `false` for every variant, state, and action. -/
theorem c9_never_done (goal_radius lava_cost : ℝ) (goal state action : Vec2)
    (θ u : ℝ) :
    (PointEnv.step goal state action).2.2.1 = false ∧
    (SparsePointEnv.step goal_radius goal state action).2.2.1 = false ∧
    (SparsePointEnvNoise.step goal_radius goal state action u).2.2.1 = false ∧
    (SparsePointEnvRandom.step goal_radius goal state action θ).2.2.1 = false ∧
    (SparseLavaPointEnv.step goal_radius lava_cost goal state action θ).2.2.1 =
      false ∧
    (SparsePointEnvSub.step goal_radius goal state action).2.2.1 = false :=
  ⟨rfl, rfl, rfl, rfl, rfl, rfl⟩

/-- C10: in the `sparse-point-robot`, noise, and lava variants the reward
returned by `step` always equals the value stored under the `sparse_reward`
key of the returned info mapping; in the `sub` variant it does not: at
goal `(1, 0)`, state `(0, 0)`, zero action, the step returns reward `-1`
while the info mapping stores sparse reward `0`. -/
theorem c10_sparse_reward_info (goal_radius lava_cost : ℝ) (goal state action : Vec2)
    (θ u : ℝ) :
    (SparsePointEnv.step goal_radius goal state action).2.2.2 =
      some ((SparsePointEnv.step goal_radius goal state action).2.1) ∧
    (SparsePointEnvNoise.step goal_radius goal state action u).2.2.2 =
      some ((SparsePointEnvNoise.step goal_radius goal state action u).2.1) ∧
    (SparseLavaPointEnv.step goal_radius lava_cost goal state action θ).2.2.2 =
      some ((SparseLavaPointEnv.step goal_radius lava_cost goal state action θ).2.1) ∧
    (SparsePointEnvSub.step 0.3 ((1 : ℝ), (0 : ℝ)) ((0 : ℝ), (0 : ℝ))
      ((0 : ℝ), (0 : ℝ))).2.1 = -1 ∧
    (SparsePointEnvSub.step 0.3 ((1 : ℝ), (0 : ℝ)) ((0 : ℝ), (0 : ℝ))
      ((0 : ℝ), (0 : ℝ))).2.2.2 = some 0 ∧
    ((-1 : ℝ) ≠ (0 : ℝ)) := by
  refine ⟨rfl, rfl, rfl, ?_, ?_, by norm_num⟩
  · norm_num [SparsePointEnvSub.step, PointEnv.nextState, denseReward,
      sparsify_rewards, Real.sqrt_one]
  · norm_num [SparsePointEnvSub.step, PointEnv.nextState, denseReward,
      sparsify_rewards, Real.sqrt_one]
